import Mathlib

/-!
Verification of the authorization and tenancy-scoping core of the
user-management service (Go / Echo / GORM).  The definitions below are a
shallow embedding of the source:

* `utils/response.go` (second snapshot): JWT issuance and validation
  (`GenerateTokenWithOrganization`, `ValidateToken`, golang-jwt v5 semantics).
* `internal/models` (`part_004`, `organization.go`): the `User` and
  `Organization` records, the `BeforeSave` bcrypt hook and
  `ValidatePassword`.
* `part_005`: `UserRepositoryImpl` and `OrganizationRepositoryImpl`.
* `internal/services/user_service.go` (multi-tenant snapshot):
  `RegisterUser`, `LoginWithOrganization`, `UpdateUser`, `UpdateUserRole`,
  `DeleteUser`, and `OrganizationService.CreateOrganization`.
* `part_007`: the organization and user HTTP handlers together with the
  route table (`RegisterRoutes`).

Machine integers: all identifiers are small database keys; Go `uint`
arithmetic never approaches overflow in the embedded operations, so ids are
modelled as `Nat`.  Time is modelled as `Int` seconds.  Go errors created by
`errors.New` are modelled as their exact message strings.
-/

namespace UserMgmt

/-!
## Passwords: ideal bcrypt model

`bcrypt.GenerateFromPassword` is modelled as a free constructor over the
string that was stored in the `Password` field, i.e. as an ideal
collision-free hash: two digests are equal exactly when they were produced
from the same field content, a digest is never equal to any plaintext, and
`bcrypt.CompareHashAndPassword(digest, pw)` succeeds exactly when the digest
was produced from the plaintext `pw`.  A digest string is 60 bytes long and
therefore never empty.
-/

/-- Content of the Go `Password` string field: either a plaintext as
submitted by a caller, or a bcrypt digest of whatever the field held when
`BeforeSave` ran. -/
inductive PwVal where
  | raw (s : String)
  | bcrypt (v : PwVal)
  deriving Repr, DecidableEq

/-- Byte length of the Go string stored in the field (a bcrypt digest is 60
bytes, never empty). -/
def PwVal.goLen : PwVal → Nat
  | .raw s => s.length
  | .bcrypt _ => 60

/-- The `User.BeforeSave` hook from `src/unnamed/part_004` lines 24-37:
rejects an empty password field, otherwise replaces the field content with
its bcrypt digest.  GORM runs this hook on every `Create` and every `Save`. -/
def beforeSavePw (p : PwVal) : Except String PwVal :=
  if p.goLen = 0 then .error "password cannot be empty"
  else .ok (.bcrypt p)

/-- The `User.ValidatePassword` method from `src/unnamed/part_004` lines
39-42: `bcrypt.CompareHashAndPassword(stored, plaintext)` succeeds exactly
when the stored value is a digest of the plaintext. -/
def pwMatches (stored : PwVal) (plaintext : String) : Bool :=
  match stored with
  | .bcrypt q => q == .raw plaintext
  | .raw _ => false

/-!
## Token Service (`utils/response.go`, second snapshot, and golang-jwt v5)

A JWT is modelled structurally instead of as a compact serialization: header
algorithm, payload claims, and the signature.  The HMAC signature is an
ideal MAC: a free constructor of the secret and the signed content, so two
signatures agree exactly when both the secret and the signed bytes agree.
-/

/-- Signing algorithm named in the token header.  `HS256`, `HS384` and
`HS512` are the `jwt.SigningMethodHMAC` family; `RS256` and `algNone` stand
for the non-HMAC methods rejected by the key function in `ValidateToken`. -/
inductive Alg where
  | HS256
  | HS384
  | HS512
  | RS256
  | algNone
  deriving Repr, DecidableEq

/-- Whether the method is an instance of `*jwt.SigningMethodHMAC`. -/
def Alg.isHMAC : Alg → Bool
  | .HS256 | .HS384 | .HS512 => true
  | .RS256 | .algNone => false

/-- The `JWTClaims` struct of `utils/response.go`: user id, organization id,
role, plus the registered `exp` and `iat` numeric-date claims (seconds). -/
structure JWTClaims where
  userID : Nat
  organizationID : Nat
  role : String
  exp : Int
  iat : Int
  deriving Repr, DecidableEq

/-- A token signature.  `hmac secret alg claims` is the ideal MAC of the
signing input (header with algorithm `alg`, payload `claims`) under
`secret`; `other` stands for any signature produced by a non-HMAC scheme. -/
inductive Signature where
  | hmac (secret : String) (alg : Alg) (claims : JWTClaims)
  | other (desc : String)
  deriving Repr, DecidableEq

/-- A structurally well-formed JWT (header.payload.signature).  Inputs that
do not even parse into this shape fail `ParseUnverified` with a malformed
token error before any of the logic modelled here runs, so they are outside
this type. -/
structure Token where
  alg : Alg
  claims : JWTClaims
  sig : Signature
  deriving Repr, DecidableEq

/-- Relevant part of `config.Config`: the shared JWT secret and the expiry
duration in hours. -/
structure Config where
  secret : String
  expiry : Int
  deriving Repr, DecidableEq

/-- `GenerateTokenWithOrganization` (`utils/response.go` lines 118-137):
embeds user id, organization id and role, sets `iat` to the current time
and `exp` to now plus `expiry` hours, and signs with HS256 under `secret`. -/
def generateTokenWithOrganization (userID organizationID : Nat) (role secret : String)
    (expiry : Int) (now : Int) : Token :=
  let claims : JWTClaims :=
    { userID := userID, organizationID := organizationID, role := role,
      exp := now + 3600 * expiry, iat := now }
  { alg := .HS256, claims := claims, sig := .hmac secret .HS256 claims }

/-- Error kinds surfaced by `jwt.ParseWithClaims` for the cases embedded
here (golang-jwt v5): the key function rejecting a non-HMAC method
(`ErrTokenUnverifiable` wrapping the unexpected-signing-method error),
`ErrTokenSignatureInvalid`, and `ErrTokenExpired`. -/
inductive TokenError where
  | unexpectedSigningMethod
  | signatureInvalid
  | expired
  deriving Repr, DecidableEq

/-- `ValidateToken` (`utils/response.go` lines 139-157) under golang-jwt v5
`ParseWithClaims` semantics, in evaluation order: the key function rejects
any method that is not `*jwt.SigningMethodHMAC` (the algorithm named by the
token is never used to pick a verification scheme); then the signature is
verified against `secret`; then the claims validator checks `exp`, which
holds exactly when the current time is strictly before the expiry instant
(no leeway). -/
def validateToken (tok : Token) (secret : String) (now : Int) :
    Except TokenError JWTClaims :=
  if ¬ tok.alg.isHMAC then .error .unexpectedSigningMethod
  else if tok.sig ≠ Signature.hmac secret tok.alg tok.claims then .error .signatureInvalid
  else if ¬ (now < tok.claims.exp) then .error .expired
  else .ok tok.claims

/-!
## Data model and storage state

The multi-tenant snapshot of the service (`user_service.go`, `part_007`)
uses the role-on-user user model: `user.Role` is a string and
`user.OrganizationID` a non-pointer `uint` (the handlers compare it to the
claims `uint` directly).  The GORM struct with these tags is not under
`src/`; only the earlier join-table-era struct (`part_004`, whose `email`
column is globally unique) is.  The record below therefore follows the
later model; the database-level email uniqueness rule, which lives in the
missing struct tags, is selectable per state (`globalEmailUnique`) so that
both historical schemas of this repository can be reasoned about: `true`
is the `part_004` tag (`email` unique across the table), `false` is the
later per-organization scoping described for the dominant model.

Soft deletion (`DeletedAt`) is a boolean marker: GORM query methods such as
`First` and `Where(...).First` exclude marked rows, while a unique index
still sees every physical row.
-/

/-- A user row.  Mirrors the fields of the role-on-user `User` model used
by the multi-tenant service: id, name, email, password hash, mandatory
organization id, role string, soft-delete marker. -/
structure User where
  id : Nat
  name : String
  email : String
  password : PwVal
  organizationID : Nat
  role : String
  deleted : Bool
  deriving Repr, DecidableEq

/-- An organization row (`internal/models/organization.go` lines 9-19): id,
tenant name, display name, description, website, soft-delete marker.  The
struct has no active flag. -/
structure Organization where
  id : Nat
  name : String
  displayName : String
  description : String
  website : String
  deleted : Bool
  deriving Repr, DecidableEq

/-- Database state threaded through the embedded repositories.  `nextUserID`
and `nextOrgID` model primary-key assignment.  `globalEmailUnique` selects
which unique-index schema the user table carries (see the section header). -/
structure DB where
  users : List User
  orgs : List Organization
  nextUserID : Nat
  nextOrgID : Nat
  globalEmailUnique : Bool
  deriving Repr, DecidableEq

/-!
## Repositories (`part_005`)

Reads return `Except` with the exact `errors.New` message of the source.
Writes return the updated state.  Every repository method writes through
the shared `r.DB` handle; none of them reads the `"tx"` context value, a
fact that matters for `CreateOrganization` below.
-/

/-- `UserRepositoryImpl.FindByID`: `First(&user, id)`, which excludes
soft-deleted rows; not-found maps to the message `user not found`. -/
def findUserByID (db : DB) (id : Nat) : Except String User :=
  match db.users.find? (fun u => u.id = id && !u.deleted) with
  | some u => .ok u
  | none => .error "user not found"

/-- `UserRepositoryImpl.FindByEmailAndOrganization` (`part_005` lines
88-110): `Where("email = ? AND organization_id = ?", ...).First`, excluding
soft-deleted rows. -/
def findUserByEmailAndOrg (db : DB) (email : String) (orgID : Nat) : Except String User :=
  match db.users.find? (fun u => u.email = email && u.organizationID = orgID && !u.deleted) with
  | some u => .ok u
  | none => .error "user not found"

/-- Whether inserting a row with this email into this organization violates
the user-table unique index of the active schema.  The global index of the
`part_004` struct sees every physical row, deleted or not; the
per-organization index of the later schema is scoped to
`(email, organization_id)`. -/
def emailConflict (db : DB) (email : String) (orgID : Nat) : Bool :=
  if db.globalEmailUnique then
    db.users.any (fun u => u.email = email)
  else
    db.users.any (fun u => u.email = email && u.organizationID = orgID && !u.deleted)

/-- `UserRepositoryImpl.Create`: GORM `Create` first runs the `BeforeSave`
hook (hashing the password field), then inserts; a unique-index violation
surfaces as a database error. -/
def userCreate (db : DB) (u : User) : Except String (User × DB) :=
  match beforeSavePw u.password with
  | .error e => .error e
  | .ok pw =>
    if emailConflict db u.email u.organizationID then
      .error "duplicate key value violates unique constraint"
    else
      let row : User := { u with id := db.nextUserID, password := pw }
      .ok (row, { db with users := db.users ++ [row], nextUserID := db.nextUserID + 1 })

/-- `UserRepositoryImpl.Update`: GORM `Save(user)` also runs the
`BeforeSave` hook, so the password field content is hashed again on every
update, and then the row with the same id is overwritten. -/
def userUpdate (db : DB) (u : User) : Except String (User × DB) :=
  match beforeSavePw u.password with
  | .error e => .error e
  | .ok pw =>
    let row : User := { u with password := pw }
    .ok (row, { db with users := db.users.map (fun v => if v.id = u.id then row else v) })

/-- `UserRepositoryImpl.Delete`: soft delete, `Where("id = ?", id).Delete`. -/
def userDelete (db : DB) (id : Nat) : DB :=
  { db with users := db.users.map (fun v => if v.id = id then { v with deleted := true } else v) }

/-- `OrganizationRepositoryImpl.FindByID`: `First(&org, id)`, excluding
soft-deleted rows; not-found maps to `organization not found`. -/
def orgFindByID (db : DB) (id : Nat) : Except String Organization :=
  match db.orgs.find? (fun o => o.id = id && !o.deleted) with
  | some o => .ok o
  | none => .error "organization not found"

/-- `OrganizationRepositoryImpl.FindByName`: `Where("name = ?", ...).First`,
excluding soft-deleted rows. -/
def orgFindByName (db : DB) (name : String) : Except String Organization :=
  match db.orgs.find? (fun o => o.name = name && !o.deleted) with
  | some o => .ok o
  | none => .error "organization not found"

/-- `OrganizationRepositoryImpl.Create` (`part_005` lines 226-237): a plain
`r.DB.Create(org)` through the shared handle — the `"tx"` value placed in
the context by `CreateOrganization` is never consulted.  The organization
struct declares no unique column, so the insert succeeds. -/
def orgCreate (db : DB) (o : Organization) : Organization × DB :=
  let row : Organization := { o with id := db.nextOrgID }
  (row, { db with orgs := db.orgs ++ [row], nextOrgID := db.nextOrgID + 1 })

/-- `OrganizationRepositoryImpl.Delete`: in one transaction, soft-delete
every user of the organization and then the organization itself.  Both
writes always succeed here, so the transaction commits. -/
def orgDelete (db : DB) (id : Nat) : DB :=
  let users1 := db.users.map (fun v =>
    if v.organizationID = id then { v with deleted := true } else v)
  let orgs1 := db.orgs.map (fun o =>
    if o.id = id then { o with deleted := true } else o)
  { db with users := users1, orgs := orgs1 }

/-!
## User service (`internal/services/user_service.go`, multi-tenant snapshot)

Service functions that mutate state return the pair of the Go result
(`Except` with the exact error message) and the database state after the
call, since a caller observes both.
-/

/-- `validateRegistration` (`user_service.go` lines 520-543).
`strings.Contains(email, "@")` for the single-character pattern is
membership of the character in the string. -/
def validateRegistration (name email password : String) : Except String Unit :=
  if name = "" then .error "name is required"
  else if email = "" then .error "email is required"
  else if ¬ email.data.contains '@' then .error "invalid email format"
  else if password = "" then .error "password is required"
  else if password.length < 6 then .error "password must be at least 6 characters"
  else .ok ()

/-- `UserService.RegisterUser` (`user_service.go` lines 242-292): validate,
verify the organization exists, reject an email already present in the same
organization, default the role to `user` when empty, then create. -/
def registerUser (db : DB) (name email password : String) (organizationID : Nat)
    (role : String) : Except String User × DB :=
  match validateRegistration name email password with
  | .error e => (.error e, db)
  | .ok () =>
    match orgFindByID db organizationID with
    | .error _ => (.error "organization not found", db)
    | .ok org =>
      match findUserByEmailAndOrg db email organizationID with
      | .ok _ => (.error "email already registered in this organization", db)
      | .error _ =>
        match userCreate db
            { id := 0, name := name, email := email,
              password := .raw password, organizationID := org.id,
              role := if role = "" then "user" else role, deleted := false } with
        | .error e => (.error e, db)
        | .ok (u, db1) => (.ok u, db1)

/-- `UserService.LoginWithOrganization` (`user_service.go` lines 294-327):
look up by email and organization, check the password, then issue a token;
both lookup failure and password mismatch return the same
`invalid email or password` error. -/
def loginWithOrganization (db : DB) (email password : String) (organizationID : Nat)
    (cfg : Config) (now : Int) : Except String (Token × User) :=
  match findUserByEmailAndOrg db email organizationID with
  | .error _ => .error "invalid email or password"
  | .ok user =>
    if ¬ pwMatches user.password password then .error "invalid email or password"
    else
      .ok (generateTokenWithOrganization user.id user.organizationID user.role
            cfg.secret cfg.expiry now, user)

/-- `UserService.UpdateUser` (`user_service.go` lines 370-410): fetch the
row, overwrite name, email and password only when the argument is nonempty
(with a same-organization duplicate check for a changed email), then save
through `UserRepositoryImpl.Update`. -/
def updateUser (db : DB) (id : Nat) (name email password : String) :
    Except String User × DB :=
  match findUserByID db id with
  | .error e => (.error e, db)
  | .ok user0 =>
    let user1 := if name ≠ "" then { user0 with name := name } else user0
    let emailStep : Except String User :=
      if email ≠ "" ∧ email ≠ user1.email then
        match findUserByEmailAndOrg db email user1.organizationID with
        | .ok ex =>
          if ex.id ≠ id then .error "email already in use in this organization"
          else .ok { user1 with email := email }
        | .error _ => .ok { user1 with email := email }
      else .ok user1
    match emailStep with
    | .error e => (.error e, db)
    | .ok user2 =>
      let user3 := if password ≠ "" then { user2 with password := .raw password } else user2
      match userUpdate db user3 with
      | .error e => (.error e, db)
      | .ok (u, db1) => (.ok u, db1)

/-- `UserService.UpdateUserRole` (`user_service.go` lines 413-440): fetch
the row, accept only the role strings `admin` and `user`, then save. -/
def updateUserRole (db : DB) (id : Nat) (role : String) : Except String User × DB :=
  match findUserByID db id with
  | .error e => (.error e, db)
  | .ok user =>
    if role ≠ "admin" ∧ role ≠ "user" then
      (.error "invalid role, must be \x27admin\x27 or \x27user\x27", db)
    else
      match userUpdate db { user with role := role } with
      | .error e => (.error e, db)
      | .ok (u, db1) => (.ok u, db1)

/-- `UserService.DeleteUser` (`user_service.go` lines 443-460): existence
check, then soft delete. -/
def deleteUser (db : DB) (id : Nat) : Except String Unit × DB :=
  match findUserByID db id with
  | .error e => (.error e, db)
  | .ok _ => (.ok (), userDelete db id)

/-!
## Organization service (`user_service.go`, third snapshot, lines 557-818)
-/

/-- Character set rejected in a tenant name by `validateOrganization`
(`strings.ContainsAny`).  The set is the source string
`" !@#$%^&*()+={}[]|\:;\"'<>,.?/"` with braces and the apostrophe written
as byte escapes. -/
def orgNameForbiddenChars : List Char :=
  " !@#$%^&*()+=\x7b\x7d[]|\\:;\"\x27<>,.?/".toList

/-- `validateOrganization` (`user_service.go` lines 778-793). -/
def validateOrganization (name displayName : String) : Except String Unit :=
  if name = "" then .error "name is required"
  else if displayName = "" then .error "display name is required"
  else if name.data.any (fun c => orgNameForbiddenChars.contains c) then
    .error "name must not contain spaces or special characters"
  else .ok ()

/-- `validateAdminUser` (`user_service.go` lines 796-818). -/
def validateAdminUser (name email password : String) : Except String Unit :=
  if name = "" then .error "admin name is required"
  else if email = "" then .error "admin email is required"
  else if ¬ email.data.contains '@' then .error "invalid admin email format"
  else if password = "" then .error "admin password is required"
  else if password.length < 6 then .error "admin password must be at least 6 characters"
  else .ok ()

/-- A GORM transaction handle as produced by `DB.Begin()`: it buffers the
writes issued through it, `Rollback` discards exactly those buffered
writes, `Commit` applies them.  `CreateOrganization` opens such a handle
and stores it in the request context, but both repository `Create` methods
write through the shared non-transactional handle instead (they never read
the `"tx"` context value), so the buffer stays empty. -/
structure Tx where
  pendingUsers : List User
  pendingOrgs : List Organization
  deriving Repr, DecidableEq

/-- `DB.Begin()`: a fresh transaction buffer. -/
def txBegin : Tx := { pendingUsers := [], pendingOrgs := [] }

/-- `tx.Rollback()`: discards the writes buffered in the transaction; the
state reached through the shared handle is untouched. -/
def txRollback (db : DB) (_tx : Tx) : DB := db

/-- `tx.Commit()`: applies the writes buffered in the transaction. -/
def txCommit (db : DB) (tx : Tx) : DB :=
  { db with users := db.users ++ tx.pendingUsers, orgs := db.orgs ++ tx.pendingOrgs }

/-- `OrganizationService.CreateOrganization` (`user_service.go` lines
581-647): validate both halves, reject a duplicate tenant name, begin a
transaction, create the organization, create the bootstrap admin user with
role `admin`, rolling the transaction back when the user insert fails and
committing otherwise.  Both `Create` calls go through the shared handle
(`part_005`), so the rollback has nothing to undo. -/
def createOrganization (db : DB)
    (name displayName description website : String)
    (adminName adminEmail adminPassword : String) :
    Except String (Organization × User) × DB :=
  match validateOrganization name displayName with
  | .error e => (.error e, db)
  | .ok () =>
    match validateAdminUser adminName adminEmail adminPassword with
    | .error e => (.error e, db)
    | .ok () =>
      match orgFindByName db name with
      | .ok _ => (.error "organization name already exists", db)
      | .error _ =>
        let tx := txBegin
        let newOrg : Organization :=
          { id := 0, name := name,
            displayName := displayName, description := description,
            website := website, deleted := false }
        let (org, db1) := orgCreate db newOrg
        let adminRow : User :=
          { id := 0, name := adminName, email := adminEmail,
            password := .raw adminPassword, organizationID := org.id,
            role := "admin", deleted := false }
        match userCreate db1 adminRow with
        | .error e => (.error e, txRollback db1 tx)
        | .ok (admin, db2) => (.ok (org, admin), txCommit db2 tx)

/-- `OrganizationService.DeleteOrganization` (`user_service.go` lines
700-717): existence check, then the cascading soft delete of `part_005`. -/
def svcDeleteOrganization (db : DB) (id : Nat) : Except String Unit × DB :=
  match orgFindByID db id with
  | .error e => (.error e, db)
  | .ok _ => (.ok (), orgDelete db id)

/-!
## HTTP handlers (`part_007`)

The multi-tenant JWT middleware and its helpers (`GetOrganizationID`,
`GetUserRole`) and the admin middleware are applied in `RegisterRoutes`
but their bodies are not among the source files.  Modelled from the spec:
the transport layer validates the bearer token and attaches the resulting
claims to the request, rejecting the request before the handler when
validation fails; the admin middleware rejects with the forbidden signal
any claims whose role is not `admin`.  Handlers below therefore receive
already-validated `JWTClaims`.
-/

/-- Outcome of a handler, by response class: a 200 with a user payload, a
200 with no payload, 400 validation, 401, 403, 404, a 400 carrying a
service error, or a 500 carrying a service error. -/
inductive HandlerResult where
  | okUser (u : User)
  | okEmpty
  | validationFailed
  | unauthorized
  | forbidden
  | notFound
  | badRequest (msg : String)
  | serverError (msg : String)
  deriving Repr, DecidableEq

/-- Modelled from the spec: the admin middleware applied by
`RegisterRoutes`, which admits the request only when the validated claims
carry the `admin` role. -/
def adminAllowed (claims : JWTClaims) : Bool :=
  claims.role = "admin"

/-- `UserHandler.GetUserByID` (`part_007` lines 391-431) on the route
`GET /api/users/:id` (JWT middleware only): fetch the target, then deny
with 403 only when the caller is not an admin AND the target belongs to a
different organization. -/
def getUserByIDEndpoint (db : DB) (claims : JWTClaims) (id : Nat) : HandlerResult :=
  match findUserByID db id with
  | .error _ => .notFound
  | .ok user =>
    if claims.role ≠ "admin" ∧ user.organizationID ≠ claims.organizationID then
      .forbidden
    else .okUser user

/-- `OrganizationHandler.DeleteOrganization` (`part_007` lines 137-156) on
the admin route `DELETE /api/organizations/:id`: after the admin
middleware, the handler deletes the target organization without comparing
it to the claims organization; a service error maps to 500. -/
def deleteOrganizationEndpoint (db : DB) (claims : JWTClaims) (id : Nat) :
    HandlerResult × DB :=
  if ¬ adminAllowed claims then (.forbidden, db)
  else
    match svcDeleteOrganization db id with
    | (.error e, db1) => (.serverError e, db1)
    | (.ok _, db1) => (.okEmpty, db1)

/-- `UserHandler.UpdateUserRole` (`part_007` lines 461-505) on the admin
route `PUT /api/users/:id/role`: after the admin middleware, re-derive the
target from storage and deny with 403 when its organization differs from
the claims organization, before applying the role change. -/
def updateUserRoleEndpoint (db : DB) (claims : JWTClaims) (id : Nat) (role : String) :
    HandlerResult × DB :=
  if ¬ adminAllowed claims then (.forbidden, db)
  else
    match findUserByID db id with
    | .error _ => (.notFound, db)
    | .ok user =>
      if user.organizationID ≠ claims.organizationID then (.forbidden, db)
      else
        match updateUserRole db id role with
        | (.error e, db1) => (.badRequest e, db1)
        | (.ok u, db1) => (.okUser u, db1)

/-- `UserHandler.DeleteUserByID` (`part_007` lines 527-565) on the admin
route `DELETE /api/users/:id`: after the admin middleware, re-derive the
target from storage and deny with 403 when its organization differs from
the claims organization, before the soft delete. -/
def deleteUserByIDEndpoint (db : DB) (claims : JWTClaims) (id : Nat) :
    HandlerResult × DB :=
  if ¬ adminAllowed claims then (.forbidden, db)
  else
    match findUserByID db id with
    | .error _ => (.notFound, db)
    | .ok user =>
      if user.organizationID ≠ claims.organizationID then (.forbidden, db)
      else
        match deleteUser db id with
        | (.error e, db1) => (.serverError e, db1)
        | (.ok _, db1) => (.okEmpty, db1)

/-- `UserHandler.UpdateUser` (`part_007` lines 434-458) on
`PUT /api/users`: the target id is always the authenticated user id taken
from the claims, never a path parameter. -/
def updateUserEndpoint (db : DB) (claims : JWTClaims) (name email password : String) :
    HandlerResult × DB :=
  match updateUser db claims.userID name email password with
  | (.error e, db1) => (.badRequest e, db1)
  | (.ok u, db1) => (.okUser u, db1)

/-!
## Specification-side access rule (for comparison with the handler code)
-/

/-- The access rule for reading, updating, or deleting another user record
exactly as the specification words it: valid claims AND the claimant
organization equals the target organization AND (the claimant role is
admin OR the claimant user id equals the target user id). -/
def specCrossUserAccessAllowed (claims : JWTClaims) (target : User) : Bool :=
  claims.organizationID == target.organizationID &&
    (claims.role == "admin" || claims.userID == target.id)

/-!
## Concrete fixtures used by witnesses and counterexamples
-/

/-- Organization 1, tenant `acme`. -/
def orgAcme : Organization :=
  { id := 1, name := "acme", displayName := "Acme", description := "",
    website := "", deleted := false }

/-- Organization 2, tenant `globex`. -/
def orgGlobex : Organization :=
  { id := 2, name := "globex", displayName := "Globex", description := "",
    website := "", deleted := false }

/-- Two live organizations, no users, later (per-organization) email schema. -/
def dbTwoOrgs : DB :=
  { users := [], orgs := [orgAcme, orgGlobex], nextUserID := 1, nextOrgID := 3,
    globalEmailUnique := false }

/-- The user row produced by registering Ann in organization 1 with password
`secret1` and no role. -/
def annUser : User :=
  { id := 1, name := "Ann", email := "ann@x.com",
    password := .bcrypt (.raw "secret1"), organizationID := 1, role := "user",
    deleted := false }

/-- `dbTwoOrgs` after Ann registered in organization 1. -/
def dbWithAnn : DB :=
  { dbTwoOrgs with users := [annUser], nextUserID := 2 }

/-- A configuration with the default secret and a 24-hour expiry. -/
def testCfg : Config := { secret := "supersecretkey", expiry := 24 }

/-- Organization 7, soft-deleted (deactivated). -/
def orgDead : Organization :=
  { id := 7, name := "dead", displayName := "Dead", description := "",
    website := "", deleted := true }

/-- A state whose only organization is the soft-deleted organization 7. -/
def dbWithDeadOrg : DB :=
  { users := [], orgs := [orgDead], nextUserID := 1, nextOrgID := 8,
    globalEmailUnique := false }

/-- A state with no organization at all (organization 7 absent). -/
def dbNoOrg : DB :=
  { users := [], orgs := [], nextUserID := 1, nextOrgID := 8,
    globalEmailUnique := false }

/-- `dbWithAnn` under the earlier `part_004` schema, whose `email` column
is unique across the whole user table. -/
def dbGlobalAnn : DB :=
  { dbWithAnn with globalEmailUnique := true }

/-- Validated claims of an admin of organization 1. -/
def adminOrg1 : JWTClaims :=
  { userID := 9, organizationID := 1, role := "admin", exp := 9999, iat := 0 }

/-- Validated claims of an admin of organization 2. -/
def adminOrg2 : JWTClaims :=
  { userID := 9, organizationID := 2, role := "admin", exp := 9999, iat := 0 }

/-- The row a successful `registerUser` call appends: fresh id, the given
profile fields, the bcrypt digest of the password, the id of the located
organization, and the submitted role with `user` as the default. -/
def registeredRow (db : DB) (name email password : String) (org : Organization)
    (role : String) : User :=
  { id := db.nextUserID, name := name, email := email,
    password := .bcrypt (.raw password), organizationID := org.id,
    role := if role = "" then "user" else role, deleted := false }

/-!
## Helper lemmas
-/

theorem validateRegistration_password_nonempty {name email password : String}
    (h : validateRegistration name email password = .ok ()) : password ≠ "" := by
  unfold validateRegistration at h
  split_ifs at h with h1 h2 h3 h4 h5
  all_goals simp_all

theorem orgFindByID_ok {db : DB} {id : Nat} {o : Organization}
    (h : orgFindByID db id = .ok o) : o.id = id ∧ o.deleted = false ∧ o ∈ db.orgs := by
  unfold orgFindByID at h
  cases hf : db.orgs.find? (fun o => o.id = id && !o.deleted) with
  | none => rw [hf] at h; simp at h
  | some o2 =>
    rw [hf] at h
    have ho : o2 = o := by injection h
    subst ho
    have hp := List.find?_some hf
    have hm := List.mem_of_find?_eq_some hf
    simp only [Bool.and_eq_true, decide_eq_true_eq, Bool.not_eq_true'] at hp
    exact ⟨hp.1, hp.2, hm⟩

theorem findUserByEmailAndOrg_error_no_conflict {db : DB} {email : String} {orgID : Nat}
    (hschema : db.globalEmailUnique = false)
    (h : findUserByEmailAndOrg db email orgID = .error "user not found") :
    emailConflict db email orgID = false := by
  unfold findUserByEmailAndOrg at h
  unfold emailConflict
  rw [hschema, if_neg (by simp)]
  cases hf : db.users.find? (fun u => u.email = email && u.organizationID = orgID && !u.deleted) with
  | some u => rw [hf] at h; simp at h
  | none =>
    have hall := List.find?_eq_none.mp hf
    simp only [List.any_eq_false]
    intro u hu
    simpa using hall u hu

theorem registerUser_success_eq {db : DB} {name email password role : String}
    {orgID : Nat} {org : Organization}
    (hval : validateRegistration name email password = .ok ())
    (horg : orgFindByID db orgID = .ok org)
    (hfree : findUserByEmailAndOrg db email orgID = .error "user not found")
    (hconf : emailConflict db email org.id = false) :
    registerUser db name email password orgID role =
      (.ok (registeredRow db name email password org role),
        { db with
          users := db.users ++ [registeredRow db name email password org role],
          nextUserID := db.nextUserID + 1 }) := by
  have hpw : password ≠ "" := validateRegistration_password_nonempty hval
  have hlen : ¬ (PwVal.raw password).goLen = 0 := by
    simp only [PwVal.goLen]
    intro hz
    apply hpw
    cases password with
    | mk data =>
      have hd : data.length = 0 := hz
      have hnil : data = [] := List.length_eq_zero.mp hd
      subst hnil
      rfl
  simp only [registerUser, hval, horg, hfree, userCreate, beforeSavePw, registeredRow]
  rw [if_neg hlen]
  simp [hconf]

theorem beforeSavePw_ok {p pw : PwVal} (h : beforeSavePw p = .ok pw) :
    pw = .bcrypt p := by
  unfold beforeSavePw at h
  split at h
  · simp at h
  · injection h with h
    exact h.symm

theorem userCreate_ok {db : DB} {u row : User} {db2 : DB}
    (h : userCreate db u = .ok (row, db2)) :
    row = { u with id := db.nextUserID, password := .bcrypt u.password } ∧
    db2 = { db with users := db.users ++ [row], nextUserID := db.nextUserID + 1 } := by
  unfold userCreate at h
  split at h
  · simp at h
  · rename_i pw hbs
    rw [beforeSavePw_ok hbs] at h
    split at h
    · simp at h
    · simp only [Except.ok.injEq, Prod.mk.injEq] at h
      refine ⟨h.1.symm, ?_⟩
      rw [← h.1, ← h.2]

theorem registerUser_ok {db : DB} {name email password role : String} {orgID : Nat}
    {u : User} {db2 : DB}
    (h : registerUser db name email password orgID role = (.ok u, db2)) :
    ∃ org, orgFindByID db orgID = .ok org ∧
      u = registeredRow db name email password org role ∧
      db2 = { db with users := db.users ++ [u], nextUserID := db.nextUserID + 1 } := by
  unfold registerUser at h
  split at h
  · simp at h
  split at h
  · simp at h
  rename_i org horg
  split at h
  · simp at h
  refine ⟨org, horg, ?_⟩
  split at h
  · simp at h
  · rename_i row db1 hcreate
    obtain ⟨hrow, hdb⟩ := userCreate_ok hcreate
    simp only [Prod.mk.injEq, Except.ok.injEq] at h
    obtain ⟨hu, hdb2⟩ := h
    subst hu
    constructor
    · rw [hrow]
      simp [registeredRow, *]
    · rw [← hdb2, hdb]

/-!
## Claims
-/

/-- C4.  Token round-trip: for every `(userID, organizationID, role)` and
shared secret, validating a token issued with those values, at any time
strictly before the expiry instant (issue time plus `expiry` hours) and
with the same secret, succeeds and returns claims whose user id,
organization id and role equal the issued values. -/
theorem C4_token_roundtrip (userID organizationID : Nat) (role secret : String)
    (expiry now t : Int) (h : t < now + 3600 * expiry) :
    validateToken (generateTokenWithOrganization userID organizationID role secret expiry now)
        secret t =
      .ok { userID := userID, organizationID := organizationID, role := role,
            exp := now + 3600 * expiry, iat := now } := by
  simp [validateToken, generateTokenWithOrganization, Alg.isHMAC, h]

/-- Witness for C4 at concrete inputs. -/
theorem C4_token_roundtrip_witness :
    validateToken (generateTokenWithOrganization 5 7 "user" "supersecretkey" 24 1000)
        "supersecretkey" 5000 =
      .ok { userID := 5, organizationID := 7, role := "user",
            exp := 1000 + 3600 * 24, iat := 1000 } :=
  C4_token_roundtrip 5 7 "user" "supersecretkey" 24 1000 5000 (by decide)

/-- C5.  Validation error taxonomy, in three parts.  (1) A well-formed
HMAC-signed token whose signature verifies against the supplied secret
fails with the expired-token error whenever validation runs at or after
the expiry instant.  (2) A token issued under one secret and validated
under a different secret fails with the invalid-signature error (golang-jwt
v5 verifies the signature before the claims, so this holds at every
validation time).  (3) A token whose header algorithm is not in the
symmetric HMAC family is rejected by the key function regardless of its
signature or expiry: the algorithm named by the token is never trusted. -/
theorem C5_validate_error_taxonomy :
    (∀ (tok : Token) (secret : String) (now : Int),
      tok.alg.isHMAC = true →
      tok.sig = Signature.hmac secret tok.alg tok.claims →
      tok.claims.exp ≤ now →
      validateToken tok secret now = .error .expired) ∧
    (∀ (userID organizationID : Nat) (role s1 s2 : String) (expiry now t : Int),
      s1 ≠ s2 →
      validateToken (generateTokenWithOrganization userID organizationID role s1 expiry now)
          s2 t = .error .signatureInvalid) ∧
    (∀ (tok : Token) (secret : String) (now : Int),
      tok.alg.isHMAC = false →
      validateToken tok secret now = .error .unexpectedSigningMethod) := by
  refine ⟨?_, ?_, ?_⟩
  · intro tok secret now halg hsig hexp
    simp [validateToken, halg, hsig, not_lt.mpr hexp]
  · intro userID organizationID role s1 s2 expiry now t hne
    have h1 : Signature.hmac s1 .HS256
        ({ userID := userID, organizationID := organizationID, role := role,
           exp := now + 3600 * expiry, iat := now } : JWTClaims) ≠
        Signature.hmac s2 .HS256
        { userID := userID, organizationID := organizationID, role := role,
          exp := now + 3600 * expiry, iat := now } := by
      intro h
      exact hne ((Signature.hmac.injEq _ _ _ _ _ _).mp h).1
    simp [validateToken, generateTokenWithOrganization, Alg.isHMAC, h1]
  · intro tok secret now halg
    simp [validateToken, halg]

/-- Witness for C5: all three parts instantiated at concrete tokens. -/
theorem C5_validate_error_taxonomy_witness :
    validateToken (generateTokenWithOrganization 5 7 "user" "supersecretkey" 24 1000)
        "supersecretkey" (1000 + 3600 * 24) = .error .expired ∧
    validateToken (generateTokenWithOrganization 5 7 "user" "supersecretkey" 24 1000)
        "othersecret" 5000 = .error .signatureInvalid ∧
    validateToken
        { alg := .RS256,
          claims := { userID := 5, organizationID := 7, role := "user", exp := 999999, iat := 0 },
          sig := .other "rsa" } "supersecretkey" 5000 = .error .unexpectedSigningMethod :=
  ⟨C5_validate_error_taxonomy.1 _ "supersecretkey" _ (by decide) rfl (by decide),
   C5_validate_error_taxonomy.2.1 5 7 "user" "supersecretkey" "othersecret" 24 1000 5000
     (by decide),
   C5_validate_error_taxonomy.2.2 _ "supersecretkey" 5000 (by decide)⟩

/-- C6.  Authentication failures are indistinguishable: a login whose
`(email, organization)` lookup finds no user and a login that finds a user
whose password does not match produce the very same
`invalid email or password` error value, so both failure results are
equal. -/
theorem C6_login_failures_indistinguishable
    (db1 db2 : DB) (e1 p1 e2 p2 : String) (o1 o2 : Nat)
    (cfg1 cfg2 : Config) (now1 now2 : Int) (u : User)
    (h1 : findUserByEmailAndOrg db1 e1 o1 = .error "user not found")
    (h2 : findUserByEmailAndOrg db2 e2 o2 = .ok u)
    (h3 : pwMatches u.password p2 = false) :
    loginWithOrganization db1 e1 p1 o1 cfg1 now1 = .error "invalid email or password" ∧
    loginWithOrganization db2 e2 p2 o2 cfg2 now2 = .error "invalid email or password" ∧
    loginWithOrganization db1 e1 p1 o1 cfg1 now1 =
      loginWithOrganization db2 e2 p2 o2 cfg2 now2 := by
  have hA : loginWithOrganization db1 e1 p1 o1 cfg1 now1 =
      .error "invalid email or password" := by
    simp [loginWithOrganization, h1]
  have hB : loginWithOrganization db2 e2 p2 o2 cfg2 now2 =
      .error "invalid email or password" := by
    simp [loginWithOrganization, h2, h3]
  exact ⟨hA, hB, hA.trans hB.symm⟩

/-- Witness for C6: against `dbWithAnn`, an unknown email and a wrong
password for Ann fail with the identical error value. -/
theorem C6_login_failures_indistinguishable_witness :
    loginWithOrganization dbWithAnn "nobody@x.com" "secret1" 1 testCfg 0 =
      .error "invalid email or password" ∧
    loginWithOrganization dbWithAnn "ann@x.com" "wrongpw" 1 testCfg 0 =
      .error "invalid email or password" ∧
    loginWithOrganization dbWithAnn "nobody@x.com" "secret1" 1 testCfg 0 =
      loginWithOrganization dbWithAnn "ann@x.com" "wrongpw" 1 testCfg 0 :=
  C6_login_failures_indistinguishable dbWithAnn dbWithAnn "nobody@x.com" "secret1"
    "ann@x.com" "wrongpw" 1 1 testCfg testCfg 0 0 annUser rfl rfl (by decide)

/-- C7.  Email uniqueness is scoped per organization, not global, under the
later role-on-user schema (whose per-organization unique index is modelled
from the spec, the GORM struct itself not being among the source files):
when a live user already holds `email` in organization A and no live user
holds it in organization B, registering `email` again in A fails with the
conflict error from `RegisterUser`, while registering it in B succeeds and
persists a user carrying that email in B. -/
theorem C7_email_uniqueness_per_organization
    (db : DB) (nameA pA roleA nameB pB roleB email : String) (orgA orgB : Nat)
    (oB : Organization) (ex : User)
    (hschema : db.globalEmailUnique = false)
    (hvalA : validateRegistration nameA email pA = .ok ())
    (hvalB : validateRegistration nameB email pB = .ok ())
    (horgA : ∃ oA, orgFindByID db orgA = .ok oA)
    (horgB : orgFindByID db orgB = .ok oB)
    (hdupA : findUserByEmailAndOrg db email orgA = .ok ex)
    (hfreeB : findUserByEmailAndOrg db email orgB = .error "user not found") :
    (registerUser db nameA email pA orgA roleA).1 =
      .error "email already registered in this organization" ∧
    ∃ u db2, registerUser db nameB email pB orgB roleB = (.ok u, db2) ∧
      u.email = email ∧ u.organizationID = oB.id ∧ u ∈ db2.users := by
  constructor
  · obtain ⟨oA, hoA⟩ := horgA
    simp [registerUser, hvalA, hoA, hdupA]
  · have hconf : emailConflict db email oB.id = false := by
      rw [(orgFindByID_ok horgB).1]
      exact findUserByEmailAndOrg_error_no_conflict hschema hfreeB
    refine ⟨registeredRow db nameB email pB oB roleB, _,
      registerUser_success_eq hvalB horgB hfreeB hconf, rfl, rfl, ?_⟩
    simp [registeredRow]

/-- Witness for C7: with Ann holding `ann@x.com` in organization 1, a
second registration of that email in organization 1 conflicts while a
registration in organization 2 succeeds. -/
theorem C7_email_uniqueness_per_organization_witness :
    (registerUser dbWithAnn "Ann2" "ann@x.com" "secret7" 1 "").1 =
      .error "email already registered in this organization" ∧
    ∃ u db2, registerUser dbWithAnn "Ann3" "ann@x.com" "secret8" 2 "" = (.ok u, db2) ∧
      u.email = "ann@x.com" ∧ u.organizationID = orgGlobex.id ∧ u ∈ db2.users :=
  C7_email_uniqueness_per_organization dbWithAnn "Ann2" "secret7" "" "Ann3" "secret8" ""
    "ann@x.com" 1 2 orgGlobex annUser rfl (by rfl) (by rfl) ⟨orgAcme, by rfl⟩ (by rfl)
    (by rfl) (by rfl)

/-- C8, counterexample.  The claim asserts a distinct organization-inactive
error for a deactivated organization; the code has none.  Registering
against the state whose organization 7 exists but is soft-deleted
(deactivated) returns the very same `organization not found` error, and the
very same overall result, as registering against the state in which
organization 7 is absent altogether — there is no organization-inactive
signal (the `Organization` struct has no active flag, and `RegisterUser`
performs no such check). -/
theorem C8_counterexample :
    registerUser dbWithDeadOrg "Ann" "ann@x.com" "secret1" 7 "" =
      (.error "organization not found", dbWithDeadOrg) ∧
    (registerUser dbWithDeadOrg "Ann" "ann@x.com" "secret1" 7 "").1 =
      (registerUser dbNoOrg "Ann" "ann@x.com" "secret1" 7 "").1 ∧
    dbWithDeadOrg.orgs.any (fun o => o.id = 7 && o.deleted) = true :=
  ⟨rfl, rfl, rfl⟩

/-- C8, amended.  For every `registerUser` call that passes input
validation, registration fails with the `organization not found` error both
when the named organization is absent and when it exists only as a
soft-deleted (deactivated) row — the organization lookup excludes
soft-deleted rows, and no distinct organization-inactive error exists — and
the state is returned unchanged, so no user record is created. -/
theorem C8_amended_registration_org_failure
    (db : DB) (name email password role : String) (orgID : Nat)
    (hval : validateRegistration name email password = .ok ())
    (horg : orgFindByID db orgID = .error "organization not found") :
    registerUser db name email password orgID role =
      (.error "organization not found", db) := by
  simp [registerUser, hval, horg]

/-- Witness for C8 at the soft-deleted organization 7. -/
theorem C8_amended_registration_org_failure_witness :
    registerUser dbWithDeadOrg "Ann" "ann@x.com" "secret1" 7 "" =
      (.error "organization not found", dbWithDeadOrg) :=
  C8_amended_registration_org_failure dbWithDeadOrg "Ann" "ann@x.com" "secret1" "" 7
    (by rfl) (by rfl)

/-- C9, counterexample.  The claim asserts the default role is `member`;
registering with an empty role argument persists the role string `user`,
which is not `member`. -/
theorem C9_counterexample :
    ((registerUser dbTwoOrgs "Ann" "ann@x.com" "secret1" 1 "").1).map User.role =
      .ok "user" ∧ ("user" : String) ≠ "member" :=
  ⟨rfl, by decide⟩

/-- C9, amended.  For every `registerUser` call with an empty role argument
that succeeds, the persisted user carries role `user` (the code name for
the non-admin member role), and its stored password is the bcrypt digest of
the submitted plaintext — never the plaintext itself. -/
theorem C9_amended_default_role_and_hashing
    (db : DB) (name email password : String) (orgID : Nat) (u : User) (db2 : DB)
    (h : registerUser db name email password orgID "" = (.ok u, db2)) :
    u.role = "user" ∧ u.password = .bcrypt (.raw password) ∧
    u.password ≠ .raw password ∧ u ∈ db2.users := by
  obtain ⟨org, _, hu, hdb2⟩ := registerUser_ok h
  subst hu hdb2
  refine ⟨by simp [registeredRow], by simp [registeredRow], by simp [registeredRow], ?_⟩
  simp

/-- Witness for C9 at a concrete registration. -/
theorem C9_amended_default_role_and_hashing_witness :
    (registeredRow dbTwoOrgs "Ann" "ann@x.com" "secret1" orgAcme "").role = "user" ∧
    (registeredRow dbTwoOrgs "Ann" "ann@x.com" "secret1" orgAcme "").password =
      .bcrypt (.raw "secret1") ∧
    (registeredRow dbTwoOrgs "Ann" "ann@x.com" "secret1" orgAcme "").password ≠
      .raw "secret1" ∧
    registeredRow dbTwoOrgs "Ann" "ann@x.com" "secret1" orgAcme "" ∈
      ((registerUser dbTwoOrgs "Ann" "ann@x.com" "secret1" 1 "").2).users :=
  C9_amended_default_role_and_hashing dbTwoOrgs "Ann" "ann@x.com" "secret1" 1
    (registeredRow dbTwoOrgs "Ann" "ann@x.com" "secret1" orgAcme "")
    ((registerUser dbTwoOrgs "Ann" "ann@x.com" "secret1" 1 "").2) (by rfl)

/-- C10.  Frame behavior of `UpdateUser` at the failing input: Ann is
registered with password `secret1` (login succeeds), then `UpdateUser`
runs with a new name and empty email and password arguments.  The stored
row keeps its role, organization and email and takes the new name — the
frame part of the claim holds — but the saved password field is the bcrypt
digest of the previously stored digest, because GORM runs the `BeforeSave`
hashing hook on `Save` as well as on `Create`; the previously set password
therefore no longer validates, contradicting the claim. -/
theorem C10_update_rehashes_password :
    loginWithOrganization dbWithAnn "ann@x.com" "secret1" 1 testCfg 0 =
      .ok (generateTokenWithOrganization 1 1 "user" "supersecretkey" 24 0, annUser) ∧
    findUserByID (updateUser dbWithAnn 1 "NewAnn" "" "").2 1 =
      .ok { id := 1, name := "NewAnn", email := "ann@x.com",
            password := .bcrypt (.bcrypt (.raw "secret1")), organizationID := 1,
            role := "user", deleted := false } ∧
    loginWithOrganization (updateUser dbWithAnn 1 "NewAnn" "" "").2
        "ann@x.com" "secret1" 1 testCfg 0 = .error "invalid email or password" :=
  ⟨rfl, rfl, rfl⟩

/-- C1, counterexample.  An admin token for organization 1 invoking delete
on organization 2 does not receive the forbidden result: the delete
succeeds, and organization 2 is soft-deleted, because the delete handler
checks only the admin role and never compares the target organization with
the claims organization. -/
theorem C1_counterexample :
    (deleteOrganizationEndpoint dbTwoOrgs adminOrg1 2).1 = .okEmpty ∧
    (deleteOrganizationEndpoint dbTwoOrgs adminOrg1 2).1 ≠ .forbidden ∧
    ((deleteOrganizationEndpoint dbTwoOrgs adminOrg1 2).2).orgs.any
      (fun o => o.id = 2 && o.deleted) = true :=
  ⟨rfl, by decide, rfl⟩

/-- C1, amended.  Organization scoping is not enforced independently of
role across the API.  (1) The delete-organization endpoint checks only the
admin role: for any admin claims and any live target organization the
delete succeeds, whatever the claims organization.  The user endpoints that
do re-check scope enforce it even for admins: (2) role update and (3)
delete-by-id deny with the forbidden result whenever the target belongs to
a different organization, also when the claimant is an admin. -/
theorem C1_amended_scoping :
    (∀ (db : DB) (claims : JWTClaims) (id : Nat) (o : Organization),
      claims.role = "admin" → orgFindByID db id = .ok o →
      (deleteOrganizationEndpoint db claims id).1 = .okEmpty) ∧
    (∀ (db : DB) (claims : JWTClaims) (id : Nat) (role : String) (u : User),
      claims.role = "admin" → findUserByID db id = .ok u →
      u.organizationID ≠ claims.organizationID →
      updateUserRoleEndpoint db claims id role = (.forbidden, db)) ∧
    (∀ (db : DB) (claims : JWTClaims) (id : Nat) (u : User),
      claims.role = "admin" → findUserByID db id = .ok u →
      u.organizationID ≠ claims.organizationID →
      deleteUserByIDEndpoint db claims id = (.forbidden, db)) := by
  refine ⟨?_, ?_, ?_⟩
  · intro db claims id o hrole horg
    simp [deleteOrganizationEndpoint, adminAllowed, hrole, svcDeleteOrganization, horg]
  · intro db claims id role u hrole hfind hne
    simp [updateUserRoleEndpoint, adminAllowed, hrole, hfind, hne]
  · intro db claims id u hrole hfind hne
    simp [deleteUserByIDEndpoint, adminAllowed, hrole, hfind, hne]

/-- Witness for C1: the admin of organization 1 deletes organization 2 with
success, while the same admin is denied a role update and a delete of a
user of organization 2. -/
theorem C1_amended_scoping_witness :
    (deleteOrganizationEndpoint dbWithAnn adminOrg1 2).1 = .okEmpty ∧
    updateUserRoleEndpoint dbWithAnn adminOrg2 1 "admin" = (.forbidden, dbWithAnn) ∧
    deleteUserByIDEndpoint dbWithAnn adminOrg2 1 = (.forbidden, dbWithAnn) :=
  ⟨C1_amended_scoping.1 dbWithAnn adminOrg1 2 orgGlobex rfl (by rfl),
   C1_amended_scoping.2.1 dbWithAnn adminOrg2 1 "admin" annUser rfl (by rfl) (by decide),
   C1_amended_scoping.2.2 dbWithAnn adminOrg2 1 annUser rfl (by rfl) (by decide)⟩

/-- C2.  Organization creation is not atomic at the failing input: under
the `part_004` schema (`email` globally unique) with `ann@x.com` already
registered in organization 1, creating organization `initech` with an admin
whose email is `ann@x.com` makes the organization insert succeed and the
admin insert fail with the duplicate-constraint error.  `tx.Rollback()`
discards only writes issued through the transaction handle — the
repositories wrote through the shared handle — so the call returns the bare
constraint error (not a wrapping rollback error) while the `initech`
organization remains persisted with no user in it: an orphan organization,
contradicting the both-or-neither claim. -/
theorem C2_rollback_leaves_orphan_org :
    (createOrganization dbGlobalAnn "initech" "Initech" "" "" "Bob" "ann@x.com"
      "secret9").1 = .error "duplicate key value violates unique constraint" ∧
    ((createOrganization dbGlobalAnn "initech" "Initech" "" "" "Bob" "ann@x.com"
      "secret9").2).orgs.any (fun o => o.name = "initech" && !o.deleted) = true ∧
    ((createOrganization dbGlobalAnn "initech" "Initech" "" "" "Bob" "ann@x.com"
      "secret9").2).users.any (fun u => u.organizationID = 3) = false :=
  ⟨rfl, rfl, rfl⟩

/-- C3, counterexample.  An admin token for organization 2 reading the
organization-1 user Ann is granted the record, although the
specification's rule — same organization AND (admin OR self) — denies the
request because the organizations differ. -/
theorem C3_counterexample :
    getUserByIDEndpoint dbWithAnn adminOrg2 1 = .okUser annUser ∧
    specCrossUserAccessAllowed adminOrg2 annUser = false :=
  ⟨rfl, rfl⟩

/-- C3, amended.  The rule the read endpoint actually implements: when the
target user is found, the request is granted exactly when the claimant
role is `admin` (with no organization comparison) OR the target belongs to
the claimant organization (with no self-ownership requirement); it is
denied with the forbidden result otherwise. -/
theorem C3_amended_read_guard (db : DB) (claims : JWTClaims) (id : Nat) (u : User)
    (hfind : findUserByID db id = .ok u) :
    (getUserByIDEndpoint db claims id = .okUser u ↔
      (claims.role = "admin" ∨ u.organizationID = claims.organizationID)) ∧
    (getUserByIDEndpoint db claims id = .forbidden ↔
      ¬ (claims.role = "admin" ∨ u.organizationID = claims.organizationID)) := by
  unfold getUserByIDEndpoint
  rw [hfind]
  by_cases h1 : claims.role = "admin"
  · simp [h1]
  · by_cases h2 : u.organizationID = claims.organizationID
    · simp [h1, h2]
    · simp [h1, h2]

/-- Witness for C3: the cross-organization admin read of Ann is granted,
and a cross-organization non-admin read is denied. -/
theorem C3_amended_read_guard_witness :
    (getUserByIDEndpoint dbWithAnn adminOrg2 1 = .okUser annUser ↔
      (adminOrg2.role = "admin" ∨ annUser.organizationID = adminOrg2.organizationID)) ∧
    (getUserByIDEndpoint dbWithAnn adminOrg2 1 = .forbidden ↔
      ¬ (adminOrg2.role = "admin" ∨ annUser.organizationID = adminOrg2.organizationID)) :=
  C3_amended_read_guard dbWithAnn adminOrg2 1 annUser (by rfl)

end UserMgmt
